import Mathlib

/-!
Verification of the material-sandbox core (samples/material_sandbox.cpp):
variant resolution, parameter binding, scene light membership, shadow
options, and the spot-light cone.  Floating-point scalars are modelled by
rationals; the external color/exposure math (Color::toLinear,
Exposure::luminance, Color::absorptionAtDistance) is kept symbolic, so a
written parameter value records exactly which function of which store
fields the code computes.
-/

namespace MaterialSandbox

/-- The material model chosen in the UI combo, in the source's order
(MATERIAL_MODEL_UNLIT, _LIT, _SUBSURFACE, _CLOTH, _SPECGLOSS). -/
inductive MaterialModel where
  | unlit
  | lit
  | subsurface
  | cloth
  | specGloss
deriving DecidableEq, Fintype

/-- The blending mode combo, in the source's order (BLENDING_OPAQUE,
_TRANSPARENT, _FADE, _THIN_REFRACTION, _SOLID_REFRACTION).  The constructor
for BLENDING_OPAQUE is named opaqueMode in this development. -/
inductive BlendingMode where
  | opaqueMode
  | transparent
  | fade
  | thinRefraction
  | solidRefraction
deriving DecidableEq, Fintype

/-- The resolved material variant, one per MATERIAL_* instance index
(MATERIAL_UNLIT .. MATERIAL_SOLID_SS_REFRACTION): eleven variants. -/
inductive Material where
  | unlit
  | lit
  | subsurface
  | cloth
  | specGloss
  | transparent
  | fade
  | thinRefraction
  | solidRefraction
  | thinSsRefraction
  | solidSsRefraction
deriving DecidableEq, Fintype

/-- Modelled from the spec: the identity correspondence between the five
material models and the five like-named variants.  In the source this is
the numeric identity MATERIAL_MODEL_X == MATERIAL_X of the index constants
declared in material_sandbox.h, which is not under src/; the spec (§4.1)
states the 1:1 mapping explicitly. -/
def modelMaterial : MaterialModel → Material
  | MaterialModel.unlit => Material.unlit
  | MaterialModel.lit => Material.lit
  | MaterialModel.subsurface => Material.subsurface
  | MaterialModel.cloth => Material.cloth
  | MaterialModel.specGloss => Material.specGloss

/-- The variant resolution of updateInstances (material_sandbox.cpp lines
329-340), translated with the same sequence of conditional overwrites of
the local variable material. -/
def resolveMaterial (model : MaterialModel) (blending : BlendingMode)
    (ssr : Bool) : Material :=
  let material := modelMaterial model
  if model = MaterialModel.lit then
    let material :=
      if blending = BlendingMode.transparent then Material.transparent else material
    let material :=
      if blending = BlendingMode.fade then Material.fade else material
    if ssr then
      let material :=
        if blending = BlendingMode.thinRefraction then Material.thinSsRefraction
        else material
      if blending = BlendingMode.solidRefraction then Material.solidSsRefraction
      else material
    else
      let material :=
        if blending = BlendingMode.thinRefraction then Material.thinRefraction
        else material
      if blending = BlendingMode.solidRefraction then Material.solidRefraction
      else material
  else material

/-- The VariantResolver decision table exactly as the spec writes it
(§4.1): non-LIT models map 1:1 ignoring blending and ssr; LIT forks on
blending, with the refraction rows forked again on the ssr flag. -/
def resolveSpecTable (model : MaterialModel) (blending : BlendingMode)
    (ssr : Bool) : Material :=
  match model with
  | MaterialModel.unlit => Material.unlit
  | MaterialModel.subsurface => Material.subsurface
  | MaterialModel.cloth => Material.cloth
  | MaterialModel.specGloss => Material.specGloss
  | MaterialModel.lit =>
    match blending with
    | BlendingMode.opaqueMode => Material.lit
    | BlendingMode.transparent => Material.transparent
    | BlendingMode.fade => Material.fade
    | BlendingMode.thinRefraction =>
      if ssr then Material.thinSsRefraction else Material.thinRefraction
    | BlendingMode.solidRefraction =>
      if ssr then Material.solidSsRefraction else Material.solidRefraction

/-- An RGB color triple as stored in the parameter store (float3 fields
modelled by rationals). -/
structure Color3 where
  r : ℚ
  g : ℚ
  b : ℚ
deriving DecidableEq

/-- A symbolic scalar: either a raw store field, or the application of one
of the external color/exposure functions the binder calls.  srgbToLinear
is one channel of Color::toLinear, and luminance is Exposure::luminance;
both are engine code outside src/, modelled from the spec as opaque
symbols (sRGB to linear conversion, photographic EV to luminance). -/
inductive SF where
  | lit (x : ℚ)
  | mul (a b : SF)
  | srgbToLinear (x : SF)
  | luminance (ev : SF)
deriving DecidableEq

/-- A value written into a shader-instance parameter slot: a float, a
float3, a float4, a color passed with RgbType::sRGB (converted by the
engine, so recorded as-is with the sRGB tag), or the result of
Color::absorptionAtDistance applied to a (symbolic) color and distance.
absorptionAtDistance is engine code outside src/, modelled from the spec
as an opaque symbol (the Beer-Lambert absorption-at-distance function). -/
inductive PValue where
  | f1 (x : SF)
  | f3 (x y z : SF)
  | f4 (x y z w : SF)
  | srgb (r g b : SF)
  | absorption (r g b d : SF)
deriving DecidableEq

/-- The fields of SandboxParameters (declared in material_sandbox.h) that
material_sandbox.cpp reads in updateInstances and gui.  Floats are
rationals, ints are integers. -/
structure SandboxParameters where
  currentMaterialModel : MaterialModel
  currentBlending : BlendingMode
  ssr : Bool
  color : Color3
  alpha : ℚ
  roughness : ℚ
  metallic : ℚ
  reflectance : ℚ
  clearCoat : ℚ
  clearCoatRoughness : ℚ
  anisotropy : ℚ
  emissiveColor : Color3
  emissiveEV : ℚ
  emissiveExposureWeight : ℚ
  transmittanceColor : Color3
  distance : ℚ
  ior : ℚ
  transmission : ℚ
  thickness : ℚ
  glossiness : ℚ
  specularColor : Color3
  subsurfacePower : ℚ
  subsurfaceColor : Color3
  sheenColor : Color3
  specularAntiAliasingVariance : ℚ
  specularAntiAliasingThreshold : ℚ
  stableShadowMap : Bool
  normalBias : ℚ
  constantBias : ℚ
  polygonOffsetConstant : ℚ
  polygonOffsetSlope : ℚ
  screenSpaceContactShadows : Bool
  stepCount : ℤ
  maxShadowDistance : ℚ
  spotLightConeAngle : ℚ
  spotLightConeFade : ℚ
  directionalLightEnabled : Bool
  hasDirectionalLight : Bool
  spotLightEnabled : Bool
  hasSpotLight : Bool
deriving DecidableEq

/-- hasRefraction of updateInstances (lines 342-343): the blending mode is
one of the two refraction modes. -/
def hasRefraction (blending : BlendingMode) : Bool :=
  blending == BlendingMode.thinRefraction || blending == BlendingMode.solidRefraction

/-- A plain float scalar parameter value. -/
def litScalar (x : ℚ) : PValue :=
  PValue.f1 (SF.lit x)

/-- A color passed to setParameter with RgbType::sRGB. -/
def srgbValue (c : Color3) : PValue :=
  PValue.srgb (SF.lit c.r) (SF.lit c.g) (SF.lit c.b)

/-- A color passed to setParameter as a raw float3. -/
def f3Value (c : Color3) : PValue :=
  PValue.f3 (SF.lit c.r) (SF.lit c.g) (SF.lit c.b)

/-- The emissive parameter value (lines 349-351): float4 whose rgb is
Color::toLinear(emissiveColor) multiplied by Exposure::luminance of the
emissive EV, and whose alpha channel is the exposure weight. -/
def emissiveValue (c : Color3) (ev w : ℚ) : PValue :=
  PValue.f4
    (SF.mul (SF.srgbToLinear (SF.lit c.r)) (SF.luminance (SF.lit ev)))
    (SF.mul (SF.srgbToLinear (SF.lit c.g)) (SF.luminance (SF.lit ev)))
    (SF.mul (SF.srgbToLinear (SF.lit c.b)) (SF.luminance (SF.lit ev)))
    (SF.lit w)

/-- The absorption parameter value (lines 369-371):
Color::absorptionAtDistance applied to Color::toLinear(transmittanceColor)
and the distance field. -/
def absorptionValue (c : Color3) (d : ℚ) : PValue :=
  PValue.absorption
    (SF.srgbToLinear (SF.lit c.r))
    (SF.srgbToLinear (SF.lit c.g))
    (SF.srgbToLinear (SF.lit c.b))
    (SF.lit d)

/-- updateInstances (material_sandbox.cpp lines 326-408): resolves the
variant and performs the sequence of setParameter calls, returned here as
the ordered list of (key, value) writes.  The two specular anti-aliasing
setters (dedicated MaterialInstance methods, lines 403-404) are recorded
under the keys specularAntiAliasingVariance / specularAntiAliasingThreshold. -/
def updateInstances (params : SandboxParameters) :
    Material × List (String × PValue) :=
  let material :=
    resolveMaterial params.currentMaterialModel params.currentBlending params.ssr
  let hasRefr := hasRefraction params.currentBlending
  let writes : List (String × PValue) :=
    [("baseColor", srgbValue params.color)]
    ++ (if params.currentMaterialModel ≠ MaterialModel.cloth then
          [("emissive", emissiveValue params.emissiveColor params.emissiveEV
              params.emissiveExposureWeight)]
        else [])
    ++ (if params.currentMaterialModel = MaterialModel.lit then
          [("roughness", litScalar params.roughness),
           ("metallic", litScalar params.metallic)]
          ++ (if !hasRefr then
                [("reflectance", litScalar params.reflectance)]
              else [])
          ++ [("clearCoat", litScalar params.clearCoat),
              ("clearCoatRoughness", litScalar params.clearCoatRoughness),
              ("anisotropy", litScalar params.anisotropy)]
          ++ (if params.currentBlending ≠ BlendingMode.opaqueMode then
                [("alpha", litScalar params.alpha)]
              else [])
          ++ (if hasRefr then
                [("absorption", absorptionValue params.transmittanceColor params.distance),
                 ("ior", litScalar params.ior),
                 ("transmission", litScalar params.transmission),
                 ("thickness", litScalar params.thickness)]
              else [])
        else [])
    ++ (if params.currentMaterialModel = MaterialModel.specGloss then
          [("glossiness", litScalar params.glossiness),
           ("specularColor", f3Value params.specularColor),
           ("reflectance", litScalar params.reflectance),
           ("clearCoat", litScalar params.clearCoat),
           ("clearCoatRoughness", litScalar params.clearCoatRoughness),
           ("anisotropy", litScalar params.anisotropy)]
        else [])
    ++ (if params.currentMaterialModel = MaterialModel.subsurface then
          [("roughness", litScalar params.roughness),
           ("metallic", litScalar params.metallic),
           ("reflectance", litScalar params.reflectance),
           ("thickness", litScalar params.thickness),
           ("subsurfacePower", litScalar params.subsurfacePower),
           ("subsurfaceColor", srgbValue params.subsurfaceColor)]
        else [])
    ++ (if params.currentMaterialModel = MaterialModel.cloth then
          [("roughness", litScalar params.roughness),
           ("sheenColor", srgbValue params.sheenColor),
           ("subsurfaceColor", srgbValue params.subsurfaceColor)]
        else [])
    ++ (if params.currentMaterialModel ≠ MaterialModel.unlit then
          [("specularAntiAliasingVariance", litScalar params.specularAntiAliasingVariance),
           ("specularAntiAliasingThreshold", litScalar params.specularAntiAliasingThreshold)]
        else [])
  (material, writes)

/-- The keys written by one updateInstances call, in call order. -/
def writtenKeys (params : SandboxParameters) : List String :=
  (updateInstances params).2.map Prod.fst

/-- The key schema of one updateInstances call as a function of the two
fields that determine it (auxiliary, for finite case analysis). -/
def keySchema (model : MaterialModel) (blending : BlendingMode) : List String :=
  ["baseColor"]
  ++ (if model ≠ MaterialModel.cloth then ["emissive"] else [])
  ++ (if model = MaterialModel.lit then
        ["roughness", "metallic"]
        ++ (if !hasRefraction blending then ["reflectance"] else [])
        ++ ["clearCoat", "clearCoatRoughness", "anisotropy"]
        ++ (if blending ≠ BlendingMode.opaqueMode then ["alpha"] else [])
        ++ (if hasRefraction blending then
              ["absorption", "ior", "transmission", "thickness"]
            else [])
      else [])
  ++ (if model = MaterialModel.specGloss then
        ["glossiness", "specularColor", "reflectance", "clearCoat",
         "clearCoatRoughness", "anisotropy"]
      else [])
  ++ (if model = MaterialModel.subsurface then
        ["roughness", "metallic", "reflectance", "thickness",
         "subsurfacePower", "subsurfaceColor"]
      else [])
  ++ (if model = MaterialModel.cloth then
        ["roughness", "sheenColor", "subsurfaceColor"]
      else [])
  ++ (if model ≠ MaterialModel.unlit then
        ["specularAntiAliasingVariance", "specularAntiAliasingThreshold"]
      else [])

/-- A shader-instance parameter table: each key holds the last value
written to it, if any. -/
abbrev ParamTable := String → Option PValue

/-- One setParameter call: assign a value to a key. -/
def applyWrite (t : ParamTable) (k : String) (v : PValue) : ParamTable :=
  fun q => if q = k then some v else t q

/-- Apply a list of writes to a table in order. -/
def applyWrites : ParamTable → List (String × PValue) → ParamTable
  | t, [] => t
  | t, (k, v) :: ws => applyWrites (applyWrite t k v) ws

/-- The value the last write to a key carries, if the key is written. -/
def assocLast : List (String × PValue) → String → Option PValue
  | [], _ => none
  | (k, v) :: ws, q =>
    match assocLast ws q with
    | some r => some r
    | none => if q = k then some v else none

/-- The per-LIT-call binding schema stated by the spec: the five scalars
always written, reflectance and alpha conditioned on the blending mode,
and the refraction quadruple (with the absorption value built from the
linearized transmittance color and the distance) written exactly in the
refraction modes. -/
def litSchemaProp (p : SandboxParameters) : Prop :=
  (("roughness", litScalar p.roughness) ∈ (updateInstances p).2 ∧
   ("metallic", litScalar p.metallic) ∈ (updateInstances p).2 ∧
   ("clearCoat", litScalar p.clearCoat) ∈ (updateInstances p).2 ∧
   ("clearCoatRoughness", litScalar p.clearCoatRoughness) ∈ (updateInstances p).2 ∧
   ("anisotropy", litScalar p.anisotropy) ∈ (updateInstances p).2) ∧
  ("reflectance" ∈ writtenKeys p ↔
    ¬(p.currentBlending = BlendingMode.thinRefraction ∨
      p.currentBlending = BlendingMode.solidRefraction)) ∧
  ("alpha" ∈ writtenKeys p ↔ p.currentBlending ≠ BlendingMode.opaqueMode) ∧
  (("absorption" ∈ writtenKeys p ∨ "ior" ∈ writtenKeys p ∨
    "transmission" ∈ writtenKeys p ∨ "thickness" ∈ writtenKeys p) ↔
    (p.currentBlending = BlendingMode.thinRefraction ∨
     p.currentBlending = BlendingMode.solidRefraction)) ∧
  ((p.currentBlending = BlendingMode.thinRefraction ∨
    p.currentBlending = BlendingMode.solidRefraction) →
    ("absorption", absorptionValue p.transmittanceColor p.distance)
        ∈ (updateInstances p).2 ∧
    ("ior", litScalar p.ior) ∈ (updateInstances p).2 ∧
    ("transmission", litScalar p.transmission) ∈ (updateInstances p).2 ∧
    ("thickness", litScalar p.thickness) ∈ (updateInstances p).2)

/-- A scene-membership call for a light entity. -/
inductive SceneOp where
  | add
  | remove
deriving DecidableEq

/-- One frame of light-membership reconciliation, the if / else-if of gui
(lines 615-621 for the directional light and 650-656 for the spot light,
applied to the pairs directionalLightEnabled / hasDirectionalLight and
spotLightEnabled / hasSpotLight): given the enabled intent and the
attached flag, return the updated flag and the scene call issued, if any. -/
def reconcileLight (enabled attached : Bool) : Bool × Option SceneOp :=
  if enabled && !attached then (true, some SceneOp.add)
  else if !enabled && attached then (false, some SceneOp.remove)
  else (attached, none)

/-- Reconciliation iterated over consecutive frames: fold reconcileLight
over the per-frame intents, collecting the issued calls. -/
def runIntents (attached : Bool) : List Bool → Bool × List (Option SceneOp)
  | [] => (attached, [])
  | e :: es =>
    let step := reconcileLight e attached
    let rest := runIntents step.1 es
    (rest.1, step.2 :: rest.2)

/-- The directional light's shadow options.  The eight named fields are
the ones material_sandbox.cpp overwrites (lines 640-647).  Modelled from
the spec: the engine record LightManager::ShadowOptions (declared outside
src/) carries further fields not owned by the parameter store, e.g. the
variance and focus flags; they are collected in the type parameter
field rest. -/
structure ShadowOptions (α : Type) where
  stable : Bool
  normalBias : ℚ
  constantBias : ℚ
  polygonOffsetConstant : ℚ
  polygonOffsetSlope : ℚ
  screenSpaceContactShadows : Bool
  stepCount : ℤ
  maxShadowDistance : ℚ
  rest : α

/-- The shadow-config step of gui (lines 639-648): read the light's
current options, overwrite the eight store-owned fields, write the merged
record back.  The record-update translation preserves every other field
by construction, which is exactly what the read-modify-write achieves. -/
def applyShadowOptions {α : Type} (opts : ShadowOptions α)
    (params : SandboxParameters) : ShadowOptions α :=
  { opts with
    stable := params.stableShadowMap
    normalBias := params.normalBias
    constantBias := params.constantBias
    polygonOffsetConstant := params.polygonOffsetConstant
    polygonOffsetSlope := params.polygonOffsetSlope
    screenSpaceContactShadows := params.screenSpaceContactShadows
    stepCount := params.stepCount
    maxShadowDistance := params.maxShadowDistance }

/-- The (inner, outer) angles passed to setSpotLightCone (lines 664-665):
inner is the cone angle scaled by the cone fade, outer is the cone angle. -/
def spotLightConeArgs (params : SandboxParameters) : ℚ × ℚ :=
  (params.spotLightConeAngle * params.spotLightConeFade, params.spotLightConeAngle)

/-- A concrete parameter store used to instantiate the theorems: a LIT
opaque material with simple rational values. -/
def sampleStore : SandboxParameters where
  currentMaterialModel := MaterialModel.lit
  currentBlending := BlendingMode.opaqueMode
  ssr := false
  color := ⟨4/5, 3/5, 2/5⟩
  alpha := 1/2
  roughness := 3/5
  metallic := 0
  reflectance := 1/2
  clearCoat := 0
  clearCoatRoughness := 0
  anisotropy := 0
  emissiveColor := ⟨1/5, 1/10, 0⟩
  emissiveEV := 3
  emissiveExposureWeight := 1
  transmittanceColor := ⟨1, 1, 1⟩
  distance := 1
  ior := 3/2
  transmission := 1
  thickness := 1
  glossiness := 1/4
  specularColor := ⟨1/2, 1/2, 1/2⟩
  subsurfacePower := 12
  subsurfaceColor := ⟨1, 1, 1⟩
  sheenColor := ⟨4/5, 4/5, 4/5⟩
  specularAntiAliasingVariance := 1/50
  specularAntiAliasingThreshold := 1/25
  stableShadowMap := false
  normalBias := 1
  constantBias := 1/1000
  polygonOffsetConstant := 1/2
  polygonOffsetSlope := 2
  screenSpaceContactShadows := false
  stepCount := 8
  maxShadowDistance := 3
  spotLightConeAngle := 1
  spotLightConeFade := 1/2
  directionalLightEnabled := true
  hasDirectionalLight := true
  spotLightEnabled := false
  hasSpotLight := false

/-- The sample store switched to the CLOTH model. -/
def sampleClothStore : SandboxParameters :=
  { sampleStore with currentMaterialModel := MaterialModel.cloth }

/-- The sample store switched to the UNLIT model. -/
def sampleUnlitStore : SandboxParameters :=
  { sampleStore with currentMaterialModel := MaterialModel.unlit }

/-- The sample store with LIT + SOLID_REFRACTION and ssr off, resolving to
the SOLID_REFRACTION variant. -/
def sampleSolidRefrStore : SandboxParameters :=
  { sampleStore with currentBlending := BlendingMode.solidRefraction }

/-- The sample store with LIT + SOLID_REFRACTION and ssr on: the spec's
end-to-end scenario (unit transmittance, distance 1, ior 3/2), resolving
to the SOLID_SS_REFRACTION variant. -/
def sampleSolidSsStore : SandboxParameters :=
  { sampleStore with
      currentBlending := BlendingMode.solidRefraction
      ssr := true }

lemma writtenKeys_eq (p : SandboxParameters) :
    writtenKeys p = keySchema p.currentMaterialModel p.currentBlending := by
  cases hm : p.currentMaterialModel <;> cases hb : p.currentBlending <;>
    simp [writtenKeys, updateInstances, keySchema, hm, hb, hasRefraction,
      litScalar, srgbValue, f3Value, emissiveValue, absorptionValue]

lemma resolvedVariant_eq (p : SandboxParameters) :
    (updateInstances p).1
      = resolveMaterial p.currentMaterialModel p.currentBlending p.ssr := rfl

/-- C1: the variant resolver is a total pure function of
(model, blending, ssrFlag) and agrees with the spec's decision table on
every one of the 5 x 5 x 2 input combinations: non-LIT models map 1:1 with
blending and ssr ignored, and LIT forks on blending with the two
refraction rows forked again on the ssr flag. -/
theorem resolveMaterial_eq_specTable :
    ∀ (model : MaterialModel) (blending : BlendingMode) (ssr : Bool),
      resolveMaterial model blending ssr = resolveSpecTable model blending ssr := by
  decide

lemma exclusivity_aux :
    ∀ (m : MaterialModel) (b : BlendingMode) (s : Bool),
      (¬("reflectance" ∈ keySchema m b ∧
          ("absorption" ∈ keySchema m b ∨ "ior" ∈ keySchema m b ∨
           "transmission" ∈ keySchema m b))) ∧
      (resolveMaterial m b s = Material.solidRefraction →
        "reflectance" ∉ keySchema m b) ∧
      (resolveMaterial m b s = Material.lit ∧ b = BlendingMode.opaqueMode →
        "absorption" ∉ keySchema m b ∧ "ior" ∉ keySchema m b ∧
        "transmission" ∉ keySchema m b ∧ "alpha" ∉ keySchema m b) := by
  decide

/-- C2: no binder call writes reflectance together with any of absorption,
ior, transmission; when the resolved variant is SOLID_REFRACTION the key
set omits reflectance; and when the resolved variant is LIT with OPAQUE
blending the key set omits absorption, ior, transmission and alpha. -/
theorem reflectance_refraction_exclusive (p : SandboxParameters) :
    (¬("reflectance" ∈ writtenKeys p ∧
        ("absorption" ∈ writtenKeys p ∨ "ior" ∈ writtenKeys p ∨
         "transmission" ∈ writtenKeys p))) ∧
    ((updateInstances p).1 = Material.solidRefraction →
      "reflectance" ∉ writtenKeys p) ∧
    ((updateInstances p).1 = Material.lit ∧
        p.currentBlending = BlendingMode.opaqueMode →
      "absorption" ∉ writtenKeys p ∧ "ior" ∉ writtenKeys p ∧
      "transmission" ∉ writtenKeys p ∧ "alpha" ∉ writtenKeys p) := by
  rw [writtenKeys_eq, resolvedVariant_eq]
  exact exclusivity_aux p.currentMaterialModel p.currentBlending p.ssr

/-- Witness for C2 at the concrete SOLID_REFRACTION store. -/
theorem reflectance_refraction_exclusive_witness :
    "reflectance" ∉ writtenKeys sampleSolidRefrStore :=
  (reflectance_refraction_exclusive sampleSolidRefrStore).2.1 (by decide)

/-- C3: each frame, the membership reconciliation issues add exactly when
the intent is on and the flag is off, remove exactly when the intent is
off and the flag is on, and nothing otherwise; the flag always lands on
the intent; and the three-frame toggle on, off, on from the attached state
issues exactly one remove then one add. -/
theorem lightMembership_reconcile :
    ∀ (enabled attached : Bool),
      ((reconcileLight enabled attached).2 = some SceneOp.add ↔
        enabled = true ∧ attached = false) ∧
      ((reconcileLight enabled attached).2 = some SceneOp.remove ↔
        enabled = false ∧ attached = true) ∧
      ((reconcileLight enabled attached).2 = none ↔ enabled = attached) ∧
      ((reconcileLight enabled attached).1 = enabled) ∧
      ((runIntents true [true, false, true]).2
        = [none, some SceneOp.remove, some SceneOp.add]) := by
  decide

lemma cloth_keys_aux :
    ∀ (b : BlendingMode),
      keySchema MaterialModel.cloth b =
        ["baseColor", "roughness", "sheenColor", "subsurfaceColor",
         "specularAntiAliasingVariance", "specularAntiAliasingThreshold"] := by
  decide

/-- C4 counterexample: for a concrete CLOTH store, the emissive key is not
among the written keys, so the written key set differs from the claimed
one (which contains emissive). -/
theorem cloth_keys_cex :
    sampleClothStore.currentMaterialModel = MaterialModel.cloth ∧
    "emissive" ∉ writtenKeys sampleClothStore ∧
    writtenKeys sampleClothStore ≠
      ["baseColor", "emissive", "roughness", "sheenColor", "subsurfaceColor",
       "specularAntiAliasingVariance", "specularAntiAliasingThreshold"] := by
  refine ⟨rfl, ?_, ?_⟩ <;> decide

/-- C4 amended: for every CLOTH store the written keys are exactly
baseColor, roughness, sheenColor, subsurfaceColor plus the two
anti-aliasing scalars; no metallic, reflectance, refraction or emissive
key is written. -/
theorem cloth_written_keys (p : SandboxParameters)
    (h : p.currentMaterialModel = MaterialModel.cloth) :
    writtenKeys p =
      ["baseColor", "roughness", "sheenColor", "subsurfaceColor",
       "specularAntiAliasingVariance", "specularAntiAliasingThreshold"] ∧
    "metallic" ∉ writtenKeys p ∧ "reflectance" ∉ writtenKeys p ∧
    "absorption" ∉ writtenKeys p ∧ "ior" ∉ writtenKeys p ∧
    "transmission" ∉ writtenKeys p ∧ "emissive" ∉ writtenKeys p := by
  rw [writtenKeys_eq, h, cloth_keys_aux p.currentBlending]
  refine ⟨rfl, ?_, ?_, ?_, ?_, ?_, ?_⟩ <;> decide

/-- Witness for C4 at the concrete CLOTH store. -/
theorem cloth_written_keys_witness :
    writtenKeys sampleClothStore =
      ["baseColor", "roughness", "sheenColor", "subsurfaceColor",
       "specularAntiAliasingVariance", "specularAntiAliasingThreshold"] ∧
    "metallic" ∉ writtenKeys sampleClothStore ∧
    "reflectance" ∉ writtenKeys sampleClothStore ∧
    "absorption" ∉ writtenKeys sampleClothStore ∧
    "ior" ∉ writtenKeys sampleClothStore ∧
    "transmission" ∉ writtenKeys sampleClothStore ∧
    "emissive" ∉ writtenKeys sampleClothStore :=
  cloth_written_keys sampleClothStore rfl

/-- C5: for every LIT store, roughness, metallic, clearCoat,
clearCoatRoughness and anisotropy are written; reflectance is written iff
the blending mode is not a refraction mode; alpha is written iff the
blending mode is not OPAQUE; and the refraction quadruple absorption
(Beer-Lambert at the linearized transmittance color and distance), ior,
transmission, thickness is written iff the blending mode is a refraction
mode. -/
theorem lit_schema (p : SandboxParameters)
    (h : p.currentMaterialModel = MaterialModel.lit) :
    litSchemaProp p := by
  unfold litSchemaProp
  cases hb : p.currentBlending <;>
    simp [updateInstances, writtenKeys, h, hb, hasRefraction]

/-- Witness for C5 at the spec's end-to-end SOLID_REFRACTION + ssr store. -/
theorem lit_schema_witness : litSchemaProp sampleSolidSsStore :=
  lit_schema sampleSolidSsStore rfl

/-- C6 counterexample: a concrete UNLIT store does write baseColor, so the
claim that UNLIT calls omit baseColor is false. -/
theorem unlit_baseColor_cex :
    sampleUnlitStore.currentMaterialModel = MaterialModel.unlit ∧
    "baseColor" ∈ writtenKeys sampleUnlitStore := by
  refine ⟨rfl, ?_⟩
  decide

/-- C6 amended: the binder writes baseColor, as an sRGB-tagged color of
the store's color field, for every model — including UNLIT. -/
theorem baseColor_always_written (p : SandboxParameters) :
    ("baseColor", srgbValue p.color) ∈ (updateInstances p).2 := by
  simp [updateInstances]

lemma emissive_cloth_aux :
    ∀ (b : BlendingMode), "emissive" ∉ keySchema MaterialModel.cloth b := by
  decide

/-- C7: for every model except CLOTH the binder writes emissive as a
4-component value whose rgb is the linearized emissive color scaled by the
luminance of the emissive EV and whose alpha channel is the exposure
weight; for CLOTH no emissive key is written. -/
theorem emissive_except_cloth (p : SandboxParameters) :
    (p.currentMaterialModel ≠ MaterialModel.cloth →
      ("emissive", emissiveValue p.emissiveColor p.emissiveEV
          p.emissiveExposureWeight) ∈ (updateInstances p).2) ∧
    (p.currentMaterialModel = MaterialModel.cloth →
      "emissive" ∉ writtenKeys p) := by
  constructor
  · intro h
    cases hm : p.currentMaterialModel <;> simp_all [updateInstances]
  · intro h
    rw [writtenKeys_eq, h]
    exact emissive_cloth_aux p.currentBlending

/-- Witness for C7 at the concrete LIT store. -/
theorem emissive_except_cloth_witness :
    ("emissive", emissiveValue sampleStore.emissiveColor sampleStore.emissiveEV
        sampleStore.emissiveExposureWeight) ∈ (updateInstances sampleStore).2 :=
  (emissive_except_cloth sampleStore).1 (by decide)

lemma applyWrites_apply (ws : List (String × PValue)) (t : ParamTable)
    (q : String) :
    applyWrites t ws q =
      match assocLast ws q with
      | some r => some r
      | none => t q := by
  induction ws generalizing t with
  | nil => rfl
  | cons w ws ih =>
    obtain ⟨k, v⟩ := w
    show applyWrites (applyWrite t k v) ws q = _
    rw [ih]
    cases h : assocLast ws q with
    | some r => simp [assocLast, h]
    | none =>
      simp only [assocLast, h, applyWrite]
      by_cases hq : q = k <;> simp [hq]

/-- C8: the binder is deterministic and idempotent in its observable
writes: applying the write list of one updateInstances call twice leaves
any parameter table in the same state as applying it once. -/
theorem binder_idempotent (p : SandboxParameters) (t : ParamTable) :
    applyWrites (applyWrites t (updateInstances p).2) (updateInstances p).2
      = applyWrites t (updateInstances p).2 := by
  funext q
  rw [applyWrites_apply, applyWrites_apply]
  cases h : assocLast (updateInstances p).2 q with
  | some r => simp [h]
  | none => simp [h, applyWrites_apply]

/-- C9: the shadow-config step replaces exactly the eight store-owned
fields of the options record it read and keeps every other field at the
value it had when read. -/
theorem shadowOptions_rmw (α : Type) (opts : ShadowOptions α)
    (p : SandboxParameters) :
    (applyShadowOptions opts p).stable = p.stableShadowMap ∧
    (applyShadowOptions opts p).normalBias = p.normalBias ∧
    (applyShadowOptions opts p).constantBias = p.constantBias ∧
    (applyShadowOptions opts p).polygonOffsetConstant = p.polygonOffsetConstant ∧
    (applyShadowOptions opts p).polygonOffsetSlope = p.polygonOffsetSlope ∧
    (applyShadowOptions opts p).screenSpaceContactShadows
      = p.screenSpaceContactShadows ∧
    (applyShadowOptions opts p).stepCount = p.stepCount ∧
    (applyShadowOptions opts p).maxShadowDistance = p.maxShadowDistance ∧
    (applyShadowOptions opts p).rest = opts.rest :=
  ⟨rfl, rfl, rfl, rfl, rfl, rfl, rfl, rfl, rfl⟩

/-- C10: the spot-light cone is set with inner angle coneAngle * coneFade
and outer angle coneAngle, so for fade in the unit interval and a
non-negative angle the inner angle never exceeds the outer angle. -/
theorem spot_cone_inner_le_outer (p : SandboxParameters)
    (_h0 : 0 ≤ p.spotLightConeFade) (h1 : p.spotLightConeFade ≤ 1)
    (h2 : 0 ≤ p.spotLightConeAngle) :
    (spotLightConeArgs p).1 = p.spotLightConeAngle * p.spotLightConeFade ∧
    (spotLightConeArgs p).2 = p.spotLightConeAngle ∧
    (spotLightConeArgs p).1 ≤ (spotLightConeArgs p).2 := by
  refine ⟨rfl, rfl, ?_⟩
  have := mul_le_of_le_one_right h2 h1
  simpa [spotLightConeArgs] using this

/-- Witness for C10 at the concrete store (fade one half, angle one). -/
theorem spot_cone_inner_le_outer_witness :
    (spotLightConeArgs sampleStore).1
        = sampleStore.spotLightConeAngle * sampleStore.spotLightConeFade ∧
    (spotLightConeArgs sampleStore).2 = sampleStore.spotLightConeAngle ∧
    (spotLightConeArgs sampleStore).1 ≤ (spotLightConeArgs sampleStore).2 :=
  spot_cone_inner_le_outer sampleStore (by norm_num [sampleStore])
    (by norm_num [sampleStore]) (by norm_num [sampleStore])

end MaterialSandbox
